import Mathlib

/-!
Shallow embedding of the compatibility/pricing core of the `pc_builder`
repository (`backend/pc_builder/services.py` and `backend/pc_builder/models.py`).

Component specification bags are untyped JSON-like values; Python operations on
them (`>`, `>=`, `in`, `+`, `*0.8`) are partial and may raise `TypeError` on
malformed values, which the engine's outer `try/except` converts into a
`CompatibilityError`.  We model JSON numbers as exact integers (every
specification value in the repository and its tests is an integer) and the
Python comparison `x > w * 0.8` as the exact rational comparison
`5 * x > 4 * w`, which agrees with the double-precision evaluation for all
integer inputs of realistic magnitude.
-/

instance {ε α : Type} [DecidableEq ε] [DecidableEq α] : DecidableEq (Except ε α) := fun a b =>
  match a, b with
  | .ok x, .ok y =>
    if h : x = y then .isTrue (h ▸ rfl) else .isFalse (fun e => h (Except.ok.inj e))
  | .error x, .error y =>
    if h : x = y then .isTrue (h ▸ rfl) else .isFalse (fun e => h (Except.error.inj e))
  | .ok _, .error _ => .isFalse nofun
  | .error _, .ok _ => .isFalse nofun

/-- JSON-like specification values stored in `Component.specifications`. -/
inductive JValue where
  | jnum (n : Int)
  | jstr (s : String)
  | jlist (l : List JValue)
  deriving Repr

namespace JValue

mutual

def decEq : (a b : JValue) → Decidable (a = b)
  | .jnum a, .jnum b =>
    if h : a = b then .isTrue (h ▸ rfl) else .isFalse (fun e => h (JValue.jnum.inj e))
  | .jstr a, .jstr b =>
    if h : a = b then .isTrue (h ▸ rfl) else .isFalse (fun e => h (JValue.jstr.inj e))
  | .jlist a, .jlist b =>
    match decEqList a b with
    | .isTrue h => .isTrue (h ▸ rfl)
    | .isFalse h => .isFalse (fun e => h (JValue.jlist.inj e))
  | .jnum _, .jstr _ => .isFalse nofun
  | .jnum _, .jlist _ => .isFalse nofun
  | .jstr _, .jnum _ => .isFalse nofun
  | .jstr _, .jlist _ => .isFalse nofun
  | .jlist _, .jnum _ => .isFalse nofun
  | .jlist _, .jstr _ => .isFalse nofun

def decEqList : (a b : List JValue) → Decidable (a = b)
  | [], [] => .isTrue rfl
  | [], _ :: _ => .isFalse nofun
  | _ :: _, [] => .isFalse nofun
  | x :: xs, y :: ys =>
    match decEq x y, decEqList xs ys with
    | .isTrue h1, .isTrue h2 => .isTrue (by rw [h1, h2])
    | .isFalse h1, _ => .isFalse (fun e => h1 (List.head_eq_of_cons_eq e))
    | _, .isFalse h2 => .isFalse (fun e => h2 (List.tail_eq_of_cons_eq e))

end

instance : DecidableEq JValue := decEq

mutual

/-- Python `str(v)` as used inside f-string error messages. -/
def pyStr : JValue → String
  | .jnum n => toString n
  | .jstr s => s
  | .jlist l => toString (pyStrList l)

def pyStrList : List JValue → List String
  | [] => []
  | v :: rest => pyStr v :: pyStrList rest

end

end JValue

/-- Python `a > b`: defined on two numbers or two strings, `TypeError` otherwise
(list ordering never occurs on any reachable path: list-valued specification
keys are only tested for membership). -/
def pyGt : JValue → JValue → Except String Bool
  | .jnum a, .jnum b => .ok (b < a)
  | .jstr a, .jstr b => .ok (b < a)
  | _, _ => .error "TypeError"

/-- Python `a >= b` with `a` a Python `int` (a slot count). -/
def pyGeInt (a : Int) : JValue → Except String Bool
  | .jnum b => .ok (b ≤ a)
  | _ => .error "TypeError"

/-- Python `a > b * 0.8` (the 80%-of-wattage safety margin), evaluated exactly:
`b * 0.8` raises `TypeError` unless `b` is a number, then the comparison raises
unless `a` is a number. -/
def pyGtFrac (a b : JValue) : Except String Bool :=
  match b with
  | .jnum w =>
    match a with
    | .jnum t => .ok (4 * w < 5 * t)
    | _ => .error "TypeError"
  | _ => .error "TypeError"

/-- Whether `pat` occurs as a substring of `s` (Python `str in str`). -/
def strContains (s pat : String) : Bool :=
  pat.isEmpty || (s.splitOn pat).length > 1

/-- Python `e in container` where `e` may be `None` (an absent `.get(k)`). -/
def pyIn (e : Option JValue) (container : JValue) : Except String Bool :=
  match container with
  | .jlist l =>
    match e with
    | some v => .ok (l.contains v)
    | none => .ok false
  | .jstr t =>
    match e with
    | some (.jstr s) => .ok (strContains t s)
    | _ => .error "TypeError"
  | .jnum _ => .error "TypeError"

/-- Python `sum(...)` over specification values, starting from the `int` 0;
`TypeError` on a non-numeric summand. -/
def pySum : List JValue → Except String Int
  | [] => .ok 0
  | v :: rest =>
    match v with
    | .jnum n =>
      match pySum rest with
      | .ok s => .ok (n + s)
      | .error e => .error e
    | _ => .error "TypeError"

/-- `pc_builder.models.Component`: catalog component with a category, an exact
decimal price, stock counters and an untyped specification bag. -/
structure Component where
  id : Nat
  category : String
  price : Rat
  stock : Int
  reorder_point : Int
  specifications : List (String × JValue)
  deriving Repr, DecidableEq

namespace Component

/-- `c.specifications.get(k)` — `None` when the key is absent. -/
def getSpec (c : Component) (k : String) : Option JValue :=
  (c.specifications.find? (fun p => decide (p.1 = k))).map (·.2)

/-- `c.specifications.get(k, d)` with an explicit default. -/
def getSpecD (c : Component) (k : String) (d : JValue) : JValue :=
  (c.getSpec k).getD d

end Component

/-- `next((c for c in selected_components if c.category == category), None)`:
the first component of a category in the selected set. -/
def firstOfCategory (selected : List Component) (cat : String) : Option Component :=
  selected.find? (fun c => decide (c.category = cat))

/-- Internal outcome of the rule body before the outer `try/except`:
a `CompatibilityError` raised by a rule, or a raw Python fault. -/
inductive CheckErr where
  | compat (msg : String)
  | raw (msg : String)
  deriving Repr, DecidableEq

/-- Lift a raw-faulting primitive into the rule body. -/
def liftRaw {α : Type} : Except String α → Except CheckErr α
  | .ok a => .ok a
  | .error m => .error (.raw m)

/-- `raise CompatibilityError(msg)` guarded by a condition. -/
def guardCompat (p : Prop) [Decidable p] (msg : String) : Except CheckErr Unit :=
  if p then .error (.compat msg) else .ok ()

/-- services.py lines 74-81: CPU/Motherboard socket rules. -/
def checkCpuMbRule (selected : List Component) (newc : Component) : Except CheckErr Unit := do
  if newc.category = "CPU" then
    match firstOfCategory selected "Motherboard" with
    | some mb =>
        guardCompat (newc.getSpec "socket" ≠ mb.getSpec "socket")
          "CPU socket is not compatible with the motherboard"
    | none => pure ()
  if newc.category = "Motherboard" then
    match firstOfCategory selected "CPU" with
    | some cpu =>
        guardCompat (newc.getSpec "socket" ≠ cpu.getSpec "socket")
          "Motherboard socket is not compatible with the CPU"
    | none => pure ()

/-- services.py lines 83-101: RAM type/generation/speed/slot rules. -/
def checkRamRule (selected : List Component) (newc : Component) : Except CheckErr Unit := do
  if newc.category = "RAM" then
    match firstOfCategory selected "Motherboard" with
    | some mb =>
        guardCompat (newc.getSpec "ram_type" ≠ mb.getSpec "ram_type")
          "RAM type is not compatible with the motherboard"
        guardCompat (newc.getSpec "generation" ≠ mb.getSpec "generation")
          "RAM generation is not compatible with the motherboard"
        let ramSpeed := newc.getSpecD "speed" (.jnum 0)
        let maxSpeed := mb.getSpecD "max_ram_speed" (.jnum 0)
        let tooFast ← liftRaw (pyGt ramSpeed maxSpeed)
        guardCompat tooFast
          ("RAM speed (" ++ ramSpeed.pyStr ++ "MHz) exceeds motherboard's maximum supported speed ("
            ++ maxSpeed.pyStr ++ "MHz)")
        let currentRamCount : Int := ((selected.filter (fun c => decide (c.category = "RAM"))).length : Int)
        let slotsFull ← liftRaw (pyGeInt currentRamCount (mb.getSpecD "ram_slots" (.jnum 0)))
        guardCompat slotsFull "No more RAM slots available on the motherboard"
    | none => pure ()

/-- services.py lines 103-119: GPU length-vs-case and TDP-vs-PSU rules. -/
def checkGpuRule (selected : List Component) (newc : Component) : Except CheckErr Unit := do
  if newc.category = "GPU" then
    match firstOfCategory selected "Case" with
    | some cas =>
        let gpuLength := newc.getSpecD "length" (.jnum 0)
        let maxGpuLength := cas.getSpecD "max_gpu_length" (.jnum 0)
        let tooLong ← liftRaw (pyGt gpuLength maxGpuLength)
        guardCompat tooLong
          ("GPU length (" ++ gpuLength.pyStr ++ "mm) exceeds case's maximum supported length ("
            ++ maxGpuLength.pyStr ++ "mm)")
    | none => pure ()
    match firstOfCategory selected "PSU" with
    | some psu =>
        let gpuTdp := newc.getSpecD "tdp" (.jnum 0)
        let psuWattage := psu.getSpecD "wattage" (.jnum 0)
        let overBudget ← liftRaw (pyGtFrac gpuTdp psuWattage)
        guardCompat overBudget
          ("GPU TDP (" ++ gpuTdp.pyStr ++ "W) exceeds recommended PSU wattage")
    | none => pure ()

/-- services.py lines 121-135: Storage NVMe-slot and SATA-port rules. -/
def checkStorageRule (selected : List Component) (newc : Component) : Except CheckErr Unit := do
  if newc.category = "Storage" then
    match firstOfCategory selected "Motherboard" with
    | some mb =>
        let storageType := newc.getSpecD "type" (.jstr "")
        if storageType = .jstr "NVMe" then
          let nvmeSlots := mb.getSpecD "nvme_slots" (.jnum 0)
          let currentNvme : Int :=
            ((selected.filter (fun c =>
              decide (c.category = "Storage" ∧ c.getSpec "type" = some (.jstr "NVMe")))).length : Int)
          let exhausted ← liftRaw (pyGeInt currentNvme nvmeSlots)
          guardCompat exhausted "No more NVMe slots available on the motherboard"
        else if storageType = .jstr "SATA" then
          let sataPorts := mb.getSpecD "sata_ports" (.jnum 0)
          let currentSata : Int :=
            ((selected.filter (fun c =>
              decide (c.category = "Storage" ∧ c.getSpec "type" = some (.jstr "SATA")))).length : Int)
          let exhausted ← liftRaw (pyGeInt currentSata sataPorts)
          guardCompat exhausted "No more SATA ports available on the motherboard"
        else pure ()
    | none => pure ()

/-- services.py lines 137-151: Cooling socket and height rules. -/
def checkCoolingRule (selected : List Component) (newc : Component) : Except CheckErr Unit := do
  if newc.category = "Cooling" then
    match firstOfCategory selected "CPU" with
    | some cpu =>
        guardCompat (newc.getSpec "socket" ≠ cpu.getSpec "socket")
          "Cooler socket is not compatible with the CPU"
    | none => pure ()
    match firstOfCategory selected "Case" with
    | some cas =>
        let coolerHeight := newc.getSpecD "height" (.jnum 0)
        let maxCoolerHeight := cas.getSpecD "max_cooler_height" (.jnum 0)
        let tooTall ← liftRaw (pyGt coolerHeight maxCoolerHeight)
        guardCompat tooTall
          ("Cooler height (" ++ coolerHeight.pyStr ++ "mm) exceeds case's maximum supported height ("
            ++ maxCoolerHeight.pyStr ++ "mm)")
    | none => pure ()

/-- services.py lines 153-158: Case form-factor rule. -/
def checkCaseRule (selected : List Component) (newc : Component) : Except CheckErr Unit := do
  if newc.category = "Case" then
    match firstOfCategory selected "Motherboard" with
    | some mb =>
        let caseFormFactors := newc.getSpecD "form_factors" (.jlist [])
        let contained ← liftRaw (pyIn (mb.getSpec "form_factor") caseFormFactors)
        guardCompat (¬ contained) "Motherboard form factor is not compatible with the case"
    | none => pure ()

/-- services.py lines 160-178: PSU form-factor and total-TDP rules. -/
def checkPsuRule (selected : List Component) (newc : Component) : Except CheckErr Unit := do
  if newc.category = "PSU" then
    match firstOfCategory selected "Case" with
    | some cas =>
        let psuFormFactor := newc.getSpecD "form_factor" (.jstr "")
        let casePsuFormFactors := cas.getSpecD "psu_form_factors" (.jlist [])
        let contained ← liftRaw (pyIn (some psuFormFactor) casePsuFormFactors)
        guardCompat (¬ contained) "PSU form factor is not compatible with the case"
    | none => pure ()
    let totalTdp ← liftRaw (pySum
      ((selected.filter (fun c => decide (c.category ∈ ["CPU", "GPU"]))).map
        (fun c => c.getSpecD "tdp" (.jnum 0))))
    let psuWattage := newc.getSpecD "wattage" (.jnum 0)
    let overBudget ← liftRaw (pyGtFrac (.jnum totalTdp) psuWattage)
    guardCompat overBudget
      ("Total component TDP (" ++ toString totalTdp ++ "W) exceeds recommended PSU wattage")

/-- The rule body of `PCBuilderService.check_compatibility` (services.py lines
67-180), before the outer `try/except`. -/
def checkCompatibilityCore (selected : List Component) (newc : Component) :
    Except CheckErr Bool := do
  checkCpuMbRule selected newc
  checkRamRule selected newc
  checkGpuRule selected newc
  checkStorageRule selected newc
  checkCoolingRule selected newc
  checkCaseRule selected newc
  checkPsuRule selected newc
  pure true

/-- `PCBuilderService.check_compatibility` (services.py lines 61-185): the outer
`try/except` re-raises `CompatibilityError` and wraps any other exception into a
`CompatibilityError` with a descriptive message.  `.ok true` is acceptance,
`.error msg` a raised `CompatibilityError`. -/
def check_compatibility (selected : List Component) (newc : Component) :
    Except String Bool :=
  match checkCompatibilityCore selected newc with
  | .ok b => .ok b
  | .error (.compat m) => .error m
  | .error (.raw m) => .error ("Error checking compatibility: " ++ m)

/-- `PCBuilderService.REQUIRED_COMPONENTS` (services.py line 10). -/
def REQUIRED_COMPONENTS : List String := ["CPU", "Motherboard", "RAM", "PSU", "Case"]

/-- One entry of `components_data`: `{'component_id': ..., 'quantity': ...}`
(`item.get('quantity', 1)` — the quantity default is applied by the caller). -/
structure PartEntry where
  component_id : Nat
  quantity : Nat
  deriving Repr, DecidableEq

/-- The component catalog held by the storage collaborator. -/
abbrev Catalog := List Component

/-- `PCBuilderService.get_component` (services.py lines 31-41): resolve a
component id through the storage collaborator (the read-through cache is a
semantic no-op); `none` models `Component.DoesNotExist`. -/
def get_component (catalog : Catalog) (cid : Nat) : Option Component :=
  catalog.find? (fun c => decide (c.id = cid))

/-- The exceptions `validate_build` can raise: `ValueError("No components
provided")`, `Component.DoesNotExist`, `ValueError("Missing required
components: ...")` carrying the missing categories, and a propagated
`CompatibilityError`. -/
inductive ValidateErr where
  | noComponents
  | notFound (cid : Nat)
  | missingRequired (missing : List String)
  | compat (msg : String)
  deriving Repr, DecidableEq

/-- The component-resolution loop of `validate_build` (services.py lines
197-200): stops at the first unresolvable id. -/
def resolveComponents (catalog : Catalog) : List PartEntry → Except ValidateErr (List Component)
  | [] => .ok []
  | item :: rest =>
    match get_component catalog item.component_id with
    | some c =>
      match resolveComponents catalog rest with
      | .ok cs => .ok (c :: cs)
      | .error e => .error e
    | none => .error (.notFound item.component_id)

/-- `set(cls.REQUIRED_COMPONENTS) - selected_categories` (services.py lines
203-204), listed in the order of `REQUIRED_COMPONENTS`. -/
def missingRequiredOf (components : List Component) : List String :=
  REQUIRED_COMPONENTS.filter (fun r => decide (¬ r ∈ components.map (·.category)))

/-- The pairwise loop of `validate_build` (services.py lines 209-211): check
each component against `components[:i] + components[i+1:]`; the first raised
`CompatibilityError` aborts. -/
def pairwiseCheckAux : List Component → List Component → Except String Unit
  | _, [] => .ok ()
  | pre, c :: rest =>
    match check_compatibility (pre ++ rest) c with
    | .ok _ => pairwiseCheckAux (pre ++ [c]) rest
    | .error m => .error m

/-- `PCBuilderService.validate_build` (services.py lines 187-213). -/
def validate_build (catalog : Catalog) (components_data : List PartEntry) :
    Except ValidateErr (List Component) :=
  if components_data.isEmpty then .error .noComponents
  else
    match resolveComponents catalog components_data with
    | .error e => .error e
    | .ok components =>
      let missing := missingRequiredOf components
      if missing ≠ [] then .error (.missingRequired missing)
      else
        match pairwiseCheckAux [] components with
        | .ok _ => .ok components
        | .error m => .error (.compat m)

/-- `PCBuilderService.calculate_total_price` (services.py lines 215-218):
`sum(component.price for component in components)` in exact decimal
arithmetic. -/
def calculate_total_price (components : List Component) : Rat :=
  (components.map (·.price)).sum

/-- One association row as created by `PCBuilderService.create_build`
(services.py lines 241-248): the keyword arguments passed to
`BuildComponent.objects.create`. -/
structure BuildLine where
  component_id : Nat
  quantity : Nat
  price_at_time : Rat
  deriving Repr, DecidableEq

/-- The build aggregate produced by `PCBuilderService.create_build`. -/
structure BuildRecord where
  user_id : Nat
  title : String
  description : String
  total_price : Rat
  is_public : Bool
  lines : List BuildLine
  deriving Repr, DecidableEq

/-- `PCBuilderService.create_build` (services.py lines 220-250): validate,
compute the total with `calculate_total_price`, persist the build and one
association row per entry of `components_data`. -/
def create_build (catalog : Catalog) (user_id : Nat) (title description : String)
    (components_data : List PartEntry) (is_public : Bool) :
    Except ValidateErr BuildRecord :=
  match validate_build catalog components_data with
  | .error e => .error e
  | .ok components =>
    .ok
      { user_id := user_id
        title := title
        description := description
        total_price := calculate_total_price components
        is_public := is_public
        lines := components_data.map (fun item =>
          { component_id := item.component_id
            quantity := item.quantity
            price_at_time :=
              (((components.find? (fun c => decide (c.id = item.component_id))).map
                (·.price)).getD 0) }) }

/-- The spec's total-price formula (spec §3 invariant, §4.2 `createBuild`,
§8): the sum over every component line of price-at-assembly × quantity. -/
def specTotalPrice (lines : List BuildLine) : Rat :=
  (lines.map (fun l => l.price_at_time * (l.quantity : Rat))).sum

/-- `pc_builder.models.BuildComponent` (models.py lines 136-143): the
association table row.  Its fields are exactly `build`, `component` and
`quantity` — the model defines no `price_at_time` column. -/
structure BuildComponent where
  component_id : Nat
  quantity : Nat
  deriving Repr, DecidableEq

/-- `pc_builder.models.PCBuild` (models.py lines 105-128), restricted to the
fields the pricing logic touches. -/
structure PCBuild where
  name : String
  total_price : Rat
  lines : List BuildComponent
  deriving Repr, DecidableEq

namespace PCBuild

/-- `PCBuild.calculate_total_price` (models.py lines 120-124): sums
`build_component.component.price * build_component.quantity` over the rows,
reading each component's **current** catalog price through the foreign key. -/
def calculate_total_price (catalog : Catalog) (b : PCBuild) : Rat :=
  (b.lines.map (fun bc =>
    (((get_component catalog bc.component_id).map (·.price)).getD 0) * (bc.quantity : Rat))).sum

/-- `PCBuild.save` (models.py lines 126-128): recompute `total_price` from the
current catalog on every save, then persist. -/
def save (catalog : Catalog) (b : PCBuild) : PCBuild :=
  { b with total_price := b.calculate_total_price catalog }

end PCBuild

/-- `pc_builder.models.InventoryAlert` (models.py lines 147-157): `resolved`
is whether `resolved_at` is set. -/
structure InventoryAlert where
  component_id : Nat
  current_stock : Int
  status : String
  resolved : Bool
  deriving Repr, DecidableEq

/-- `Component.create_stock_alert` (models.py lines 54-63): unconditionally
insert a new alert row (the email side effect is an external collaborator). -/
def create_stock_alert (c : Component) (status : String) (alerts : List InventoryAlert) :
    List InventoryAlert :=
  alerts ++ [{ component_id := c.id, current_stock := c.stock, status := status, resolved := false }]

/-- `Component.check_stock_level` (models.py lines 46-52): create an alert when
stock is at or below a threshold; returns the stock and the alert table. -/
def check_stock_level (c : Component) (alerts : List InventoryAlert) :
    Int × List InventoryAlert :=
  if c.stock ≤ 0 then (c.stock, create_stock_alert c "out_of_stock" alerts)
  else if c.stock ≤ c.reorder_point then (c.stock, create_stock_alert c "low_stock" alerts)
  else (c.stock, alerts)

/-! Concrete catalog data used in scenario and witness statements, mirroring
the fixtures of `backend/pc_builder/tests.py`. -/

def cpuC : Component := ⟨1, "CPU", 35000, 10, 10, [("socket", .jstr "LGA 1700"), ("tdp", .jnum 125)]⟩

def mbC : Component := ⟨2, "Motherboard", 25000, 10, 10,
  [("socket", .jstr "LGA 1700"), ("ram_type", .jstr "DDR5"), ("generation", .jstr "DDR5"),
   ("ram_slots", .jnum 4), ("form_factor", .jstr "ATX"), ("max_ram_speed", .jnum 6000)]⟩

def ramC : Component := ⟨3, "RAM", 12000, 10, 10,
  [("ram_type", .jstr "DDR5"), ("generation", .jstr "DDR5"), ("speed", .jnum 5600)]⟩

def psuC : Component := ⟨4, "PSU", 15000, 10, 10,
  [("wattage", .jnum 850), ("form_factor", .jstr "ATX")]⟩

def caseC : Component := ⟨5, "Case", 10000, 10, 10,
  [("form_factors", .jlist [.jstr "ATX"]), ("psu_form_factors", .jlist [.jstr "ATX", .jstr "SFX"]),
   ("max_gpu_length", .jnum 420)]⟩

/-- A five-part catalog covering every required category. -/
def catalogC : Catalog := [cpuC, mbC, ramC, psuC, caseC]

/-- A parts list over `catalogC` in which the RAM line has quantity 2. -/
def partsQ2 : List PartEntry := [⟨1, 1⟩, ⟨2, 1⟩, ⟨3, 2⟩, ⟨4, 1⟩, ⟨5, 1⟩]

/-- The same parts list with every quantity 1. -/
def partsQ1 : List PartEntry := [⟨1, 1⟩, ⟨2, 1⟩, ⟨3, 1⟩, ⟨4, 1⟩, ⟨5, 1⟩]

def cpuLGAonly : Component := ⟨11, "CPU", 45000, 10, 10, [("socket", .jstr "LGA 1700")]⟩

def mbAM4 : Component := ⟨12, "Motherboard", 9000, 10, 10, [("socket", .jstr "AM4")]⟩

def gpu450 : Component := ⟨13, "GPU", 150000, 10, 10, [("length", .jnum 450), ("tdp", .jnum 450)]⟩

def gpu320 : Component := ⟨14, "GPU", 70000, 10, 10, [("length", .jnum 320), ("tdp", .jnum 320)]⟩

def ramBadType : Component := ⟨15, "RAM", 10000, 10, 10,
  [("ram_type", .jstr "DDR4"), ("generation", .jstr "DDR5"), ("speed", .jnum 5600)]⟩

def ramBadGen : Component := ⟨16, "RAM", 10000, 10, 10,
  [("ram_type", .jstr "DDR5"), ("generation", .jstr "DDR4"), ("speed", .jnum 5600)]⟩

def ramFast : Component := ⟨17, "RAM", 15000, 10, 10,
  [("ram_type", .jstr "DDR5"), ("generation", .jstr "DDR5"), ("speed", .jnum 7000)]⟩

def mbSlot1 : Component := ⟨18, "Motherboard", 20000, 10, 10,
  [("socket", .jstr "LGA 1700"), ("ram_type", .jstr "DDR5"), ("generation", .jstr "DDR5"),
   ("ram_slots", .jnum 1), ("max_ram_speed", .jnum 6000)]⟩

/-- RAM with a malformed (string-valued) `speed` specification. -/
def ramStrSpeed : Component := ⟨19, "RAM", 1000, 10, 10,
  [("ram_type", .jstr "DDR5"), ("generation", .jstr "DDR5"), ("speed", .jstr "fast")]⟩

/-- The numeric value of a specification key after the `.get(k, 0)` default. -/
def specNum (c : Component) (k : String) : Option Int :=
  match c.getSpecD k (.jnum 0) with
  | .jnum n => some n
  | _ => none

/-- Total TDP of the already-selected CPU and GPU components (services.py
lines 171-175), with defaulted numeric readings. -/
def totalTdpOf (selected : List Component) : Int :=
  ((selected.filter (fun c => decide (c.category ∈ ["CPU", "GPU"]))).map
    (fun c => (specNum c "tdp").getD 0)).sum

/-- The same part ids with every quantity 8. -/
def partsQ8 : List PartEntry := [⟨1, 8⟩, ⟨2, 8⟩, ⟨3, 8⟩, ⟨4, 8⟩, ⟨5, 8⟩]

/-- The build record produced by `create_build` over `partsQ1`. -/
def buildQ1 : BuildRecord :=
  ⟨7, "t", "d", calculate_total_price [cpuC, mbC, ramC, psuC, caseC], true,
   [⟨1, 1, 35000⟩, ⟨2, 1, 25000⟩, ⟨3, 1, 12000⟩, ⟨4, 1, 15000⟩, ⟨5, 1, 10000⟩]⟩

/-- A catalog component priced 10, and the same component after a catalog
price change to 20. -/
def compP10 : Component := ⟨21, "CPU", 10, 5, 10, []⟩

def compP20 : Component := ⟨21, "CPU", 20, 5, 10, []⟩

/-- A persisted build holding one line (quantity 1) of component 21. -/
def buildB : PCBuild := ⟨"b", 10, [⟨21, 1⟩]⟩

/-- A component whose stock is 0 (at the out-of-stock threshold). -/
def outComp : Component := ⟨22, "CPU", 10, 0, 10, []⟩

/-! ## Theorems -/

theorem specNum_eq_some (c : Component) (k : String) (n : Int) :
    specNum c k = some n ↔ c.getSpecD k (.jnum 0) = .jnum n := by
  unfold specNum
  cases h : c.getSpecD k (.jnum 0) <;> simp

/-- C3: with a Motherboard in the selected set, a candidate CPU is accepted iff
its `socket` specification equals the motherboard's `socket` specification;
and the scenario CPU socket "LGA 1700" against Motherboard socket "AM4" is
rejected with the socket-mismatch reason. -/
theorem cpu_accepted_iff_socket_matches :
    (∀ (sel : List Component) (newc mb : Component),
      newc.category = "CPU" →
      firstOfCategory sel "Motherboard" = some mb →
      (check_compatibility sel newc = .ok true ↔
        newc.getSpec "socket" = mb.getSpec "socket")) ∧
    check_compatibility [mbAM4] cpuLGAonly =
      .error "CPU socket is not compatible with the motherboard" := by
  constructor
  · intro sel newc mb hcat hmb
    by_cases h : newc.getSpec "socket" = mb.getSpec "socket"
    · simp [check_compatibility, checkCompatibilityCore, checkCpuMbRule, checkRamRule, checkGpuRule,
        checkStorageRule, checkCoolingRule, checkCaseRule, checkPsuRule, hcat, hmb, guardCompat, h]
    · simp [check_compatibility, checkCompatibilityCore, checkCpuMbRule, checkRamRule, checkGpuRule,
        checkStorageRule, checkCoolingRule, checkCaseRule, checkPsuRule, hcat, hmb, guardCompat, h]
  · rfl

/-- Witness for C3 at a concrete input: CPU "LGA 1700" against motherboard
"LGA 1700". -/
theorem cpu_accepted_iff_socket_matches_witness :
    check_compatibility [mbC] cpuLGAonly = .ok true ↔
      cpuLGAonly.getSpec "socket" = mbC.getSpec "socket" :=
  cpu_accepted_iff_socket_matches.1 [mbC] cpuLGAonly mbC rfl rfl

/-- C4: with a Motherboard in the selected set (and well-typed numeric
`speed`, `max_ram_speed`, `ram_slots` values), a candidate RAM is accepted iff
its `ram_type` and `generation` match the motherboard's, its speed is at most
`max_ram_speed`, and the number of RAM entries already selected is below
`ram_slots`; the four scenario conjuncts show each condition independently
falsifiable. -/
theorem ram_accepted_iff_four_conditions :
    (∀ (sel : List Component) (newc mb : Component) (s m slots : Int),
      newc.category = "RAM" →
      firstOfCategory sel "Motherboard" = some mb →
      specNum newc "speed" = some s →
      specNum mb "max_ram_speed" = some m →
      specNum mb "ram_slots" = some slots →
      (check_compatibility sel newc = .ok true ↔
        (newc.getSpec "ram_type" = mb.getSpec "ram_type" ∧
         newc.getSpec "generation" = mb.getSpec "generation" ∧
         s ≤ m ∧
         ((sel.filter (fun c => decide (c.category = "RAM"))).length : Int) < slots))) ∧
    check_compatibility [mbC] ramBadType =
      .error "RAM type is not compatible with the motherboard" ∧
    check_compatibility [mbC] ramBadGen =
      .error "RAM generation is not compatible with the motherboard" ∧
    check_compatibility [mbC] ramFast =
      .error "RAM speed (7000MHz) exceeds motherboard's maximum supported speed (6000MHz)" ∧
    check_compatibility [mbSlot1, ramC] ramC =
      .error "No more RAM slots available on the motherboard" := by
  refine ⟨?_, rfl, rfl, rfl, rfl⟩
  intro sel newc mb s m slots hcat hmb hs hm hsl
  rw [specNum_eq_some] at hs hm hsl
  by_cases h1 : newc.getSpec "ram_type" = mb.getSpec "ram_type"
  · by_cases h2 : newc.getSpec "generation" = mb.getSpec "generation"
    · by_cases h3 : m < s
      · simp [check_compatibility, checkCompatibilityCore, checkCpuMbRule, checkRamRule, checkGpuRule,
          checkStorageRule, checkCoolingRule, checkCaseRule, checkPsuRule, hcat, hmb, guardCompat,
          h1, h2, hs, hm, hsl, pyGt, pyGeInt, liftRaw, pure, Except.pure, Bind.bind, Except.bind, h3]
        <;> omega
      · by_cases h4 : slots ≤ ((sel.filter (fun c => decide (c.category = "RAM"))).length : Int)
        · simp [check_compatibility, checkCompatibilityCore, checkCpuMbRule, checkRamRule, checkGpuRule,
            checkStorageRule, checkCoolingRule, checkCaseRule, checkPsuRule, hcat, hmb, guardCompat,
            h1, h2, hs, hm, hsl, pyGt, pyGeInt, liftRaw, pure, Except.pure, Bind.bind, Except.bind, h3, h4]
          <;> omega
        · simp [check_compatibility, checkCompatibilityCore, checkCpuMbRule, checkRamRule, checkGpuRule,
            checkStorageRule, checkCoolingRule, checkCaseRule, checkPsuRule, hcat, hmb, guardCompat,
            h1, h2, hs, hm, hsl, pyGt, pyGeInt, liftRaw, pure, Except.pure, Bind.bind, Except.bind, h3, h4]
          <;> omega
    · simp [check_compatibility, checkCompatibilityCore, checkCpuMbRule, checkRamRule, checkGpuRule,
        checkStorageRule, checkCoolingRule, checkCaseRule, checkPsuRule, hcat, hmb, guardCompat,
        h1, h2, pure, Except.pure, Bind.bind, Except.bind]
  · simp [check_compatibility, checkCompatibilityCore, checkCpuMbRule, checkRamRule, checkGpuRule,
      checkStorageRule, checkCoolingRule, checkCaseRule, checkPsuRule, hcat, hmb, guardCompat,
      h1, pure, Except.pure, Bind.bind, Except.bind]

/-- Witness for C4 at a concrete input: the compatible DDR5 RAM against the
DDR5 motherboard with 4 slots. -/
theorem ram_accepted_iff_four_conditions_witness :
    check_compatibility [mbC] ramC = .ok true ↔
      (ramC.getSpec "ram_type" = mbC.getSpec "ram_type" ∧
       ramC.getSpec "generation" = mbC.getSpec "generation" ∧
       (5600 : Int) ≤ 6000 ∧
       (([mbC].filter (fun c => decide (c.category = "RAM"))).length : Int) < 4) :=
  ram_accepted_iff_four_conditions.1 [mbC] ramC mbC 5600 6000 4 rfl rfl rfl rfl rfl

/-- C5: a candidate GPU is accepted iff (when a Case is selected) its length is
at most the case's `max_gpu_length` and (when a PSU is selected) its TDP is at
most 0.8 × the PSU's wattage (`5·tdp ≤ 4·wattage` exactly); the scenario
conjuncts show GPU length 450mm rejected against `max_gpu_length` 420 with the
length-exceeded reason and GPU length 320mm accepted against the same case. -/
theorem gpu_accepted_iff_length_and_tdp :
    (∀ (sel : List Component) (newc : Component) (len tdp : Int),
      newc.category = "GPU" →
      specNum newc "length" = some len →
      specNum newc "tdp" = some tdp →
      (∀ cas ∈ firstOfCategory sel "Case", (specNum cas "max_gpu_length").isSome) →
      (∀ psu ∈ firstOfCategory sel "PSU", (specNum psu "wattage").isSome) →
      (check_compatibility sel newc = .ok true ↔
        ((∀ cas ∈ firstOfCategory sel "Case", ∀ ml ∈ specNum cas "max_gpu_length", len ≤ ml) ∧
         (∀ psu ∈ firstOfCategory sel "PSU", ∀ w ∈ specNum psu "wattage", 5 * tdp ≤ 4 * w)))) ∧
    check_compatibility [caseC] gpu450 =
      .error "GPU length (450mm) exceeds case's maximum supported length (420mm)" ∧
    check_compatibility [caseC] gpu320 = .ok true := by
  refine ⟨?_, rfl, rfl⟩
  intro sel newc len tdp hcat hlen htdp hcase hpsu
  rw [specNum_eq_some] at hlen htdp
  cases hc : firstOfCategory sel "Case" with
  | none =>
    cases hp : firstOfCategory sel "PSU" with
    | none =>
      simp [check_compatibility, checkCompatibilityCore, checkCpuMbRule, checkRamRule, checkGpuRule,
        checkStorageRule, checkCoolingRule, checkCaseRule, checkPsuRule, hcat, hc, hp, guardCompat,
        pure, Except.pure, Bind.bind, Except.bind]
    | some psu =>
      obtain ⟨w, hw⟩ := Option.isSome_iff_exists.mp (hpsu psu (by simp [hp]))
      have hw2 := (specNum_eq_some psu "wattage" w).mp hw
      by_cases ht : 4 * w < 5 * tdp
      · simp [check_compatibility, checkCompatibilityCore, checkCpuMbRule, checkRamRule, checkGpuRule,
          checkStorageRule, checkCoolingRule, checkCaseRule, checkPsuRule, hcat, hc, hp, guardCompat,
          htdp, hw2, hw, pyGtFrac, liftRaw, pure, Except.pure, Bind.bind, Except.bind, ht]
        <;> omega
      · simp [check_compatibility, checkCompatibilityCore, checkCpuMbRule, checkRamRule, checkGpuRule,
          checkStorageRule, checkCoolingRule, checkCaseRule, checkPsuRule, hcat, hc, hp, guardCompat,
          htdp, hw2, hw, pyGtFrac, liftRaw, pure, Except.pure, Bind.bind, Except.bind, ht]
        <;> omega
  | some cas =>
    obtain ⟨ml, hml⟩ := Option.isSome_iff_exists.mp (hcase cas (by simp [hc]))
    have hml2 := (specNum_eq_some cas "max_gpu_length" ml).mp hml
    cases hp : firstOfCategory sel "PSU" with
    | none =>
      by_cases hl : ml < len
      · simp [check_compatibility, checkCompatibilityCore, checkCpuMbRule, checkRamRule, checkGpuRule,
          checkStorageRule, checkCoolingRule, checkCaseRule, checkPsuRule, hcat, hc, hp, guardCompat,
          hlen, hml2, hml, pyGt, liftRaw, pure, Except.pure, Bind.bind, Except.bind, hl]
        <;> omega
      · simp [check_compatibility, checkCompatibilityCore, checkCpuMbRule, checkRamRule, checkGpuRule,
          checkStorageRule, checkCoolingRule, checkCaseRule, checkPsuRule, hcat, hc, hp, guardCompat,
          hlen, hml2, hml, pyGt, liftRaw, pure, Except.pure, Bind.bind, Except.bind, hl]
        <;> omega
    | some psu =>
      obtain ⟨w, hw⟩ := Option.isSome_iff_exists.mp (hpsu psu (by simp [hp]))
      have hw2 := (specNum_eq_some psu "wattage" w).mp hw
      by_cases hl : ml < len
      · simp [check_compatibility, checkCompatibilityCore, checkCpuMbRule, checkRamRule, checkGpuRule,
          checkStorageRule, checkCoolingRule, checkCaseRule, checkPsuRule, hcat, hc, hp, guardCompat,
          hlen, hml2, hml, htdp, hw2, hw, pyGt, pyGtFrac, liftRaw, pure, Except.pure, Bind.bind,
          Except.bind, hl]
        <;> omega
      · by_cases ht : 4 * w < 5 * tdp
        · simp [check_compatibility, checkCompatibilityCore, checkCpuMbRule, checkRamRule, checkGpuRule,
            checkStorageRule, checkCoolingRule, checkCaseRule, checkPsuRule, hcat, hc, hp, guardCompat,
            hlen, hml2, hml, htdp, hw2, hw, pyGt, pyGtFrac, liftRaw, pure, Except.pure, Bind.bind,
            Except.bind, hl, ht]
          <;> omega
        · simp [check_compatibility, checkCompatibilityCore, checkCpuMbRule, checkRamRule, checkGpuRule,
            checkStorageRule, checkCoolingRule, checkCaseRule, checkPsuRule, hcat, hc, hp, guardCompat,
            hlen, hml2, hml, htdp, hw2, hw, pyGt, pyGtFrac, liftRaw, pure, Except.pure, Bind.bind,
            Except.bind, hl, ht]
          <;> omega

/-- Witness for C5 at a concrete input: GPU length 320 / TDP 320 against the
420mm case and the 850W PSU. -/
theorem gpu_accepted_iff_length_and_tdp_witness :
    check_compatibility [caseC, psuC] gpu320 = .ok true ↔
      ((∀ cas ∈ firstOfCategory [caseC, psuC] "Case",
          ∀ ml ∈ specNum cas "max_gpu_length", (320 : Int) ≤ ml) ∧
       (∀ psu ∈ firstOfCategory [caseC, psuC] "PSU",
          ∀ w ∈ specNum psu "wattage", 5 * (320 : Int) ≤ 4 * w)) :=
  gpu_accepted_iff_length_and_tdp.1 [caseC, psuC] gpu320 320 320 rfl rfl rfl
    (by
      intro cas h
      rw [show firstOfCategory [caseC, psuC] "Case" = some caseC from rfl, Option.mem_def,
        Option.some_inj] at h
      subst h
      rfl)
    (by
      intro psu h
      rw [show firstOfCategory [caseC, psuC] "PSU" = some psuC from rfl, Option.mem_def,
        Option.some_inj] at h
      subst h
      rfl)

theorem pySum_map_jnum (ns : List Int) : pySum (ns.map JValue.jnum) = .ok ns.sum := by
  induction ns with
  | nil => rfl
  | cons n rest ih => simp [pySum, ih]

theorem tdp_map_eq (sel : List Component)
    (h : ∀ c ∈ sel, c.category ∈ ["CPU", "GPU"] → (specNum c "tdp").isSome) :
    (sel.filter (fun c => decide (c.category ∈ ["CPU", "GPU"]))).map
        (fun c => c.getSpecD "tdp" (.jnum 0)) =
      ((sel.filter (fun c => decide (c.category ∈ ["CPU", "GPU"]))).map
        (fun c => (specNum c "tdp").getD 0)).map JValue.jnum := by
  rw [List.map_map]
  apply List.map_congr_left
  intro c hcmem
  have hcsel := List.mem_of_mem_filter hcmem
  have hcat : c.category ∈ ["CPU", "GPU"] := by
    have := List.of_mem_filter hcmem
    simpa using this
  obtain ⟨n, hn⟩ := Option.isSome_iff_exists.mp (h c hcsel hcat)
  have h2 := (specNum_eq_some c "tdp" n).mp hn
  simp [h2, hn]

/-- C6: a candidate PSU (with a numeric wattage, numeric TDP values on the
selected CPU/GPU components, and a list-valued `psu_form_factors` on a selected
Case) is accepted iff (when a Case is present) its `form_factor` is contained
in the case's `psu_form_factors` and the total TDP of the already-selected CPU
and GPU components is at most 0.8 × its wattage (`5·Σtdp ≤ 4·wattage`
exactly). -/
theorem psu_accepted_iff_form_factor_and_load :
    ∀ (sel : List Component) (newc : Component) (w : Int),
      newc.category = "PSU" →
      specNum newc "wattage" = some w →
      (∀ c ∈ sel, c.category ∈ ["CPU", "GPU"] → (specNum c "tdp").isSome) →
      (∀ cas ∈ firstOfCategory sel "Case",
        ∃ l, cas.getSpecD "psu_form_factors" (.jlist []) = .jlist l) →
      (check_compatibility sel newc = .ok true ↔
        ((∀ cas ∈ firstOfCategory sel "Case", ∀ l,
            cas.getSpecD "psu_form_factors" (.jlist []) = .jlist l →
            newc.getSpecD "form_factor" (.jstr "") ∈ l) ∧
         5 * totalTdpOf sel ≤ 4 * w)) := by
  intro sel newc w hcat hw htdps hcaselist
  rw [specNum_eq_some] at hw
  have hfe : sel.filter (fun c => decide (c.category = "CPU") || decide (c.category = "GPU")) =
      sel.filter (fun c => decide (c.category ∈ ["CPU", "GPU"])) := by
    apply List.filter_congr
    intro c _
    simp
  have hsum : pySum ((sel.filter
        (fun c => decide (c.category = "CPU") || decide (c.category = "GPU"))).map
      (fun c => c.getSpecD "tdp" (.jnum 0))) = .ok (totalTdpOf sel) := by
    rw [hfe, tdp_map_eq sel htdps, pySum_map_jnum]
    rfl
  cases hc : firstOfCategory sel "Case" with
  | none =>
    by_cases ht : 4 * w < 5 * totalTdpOf sel
    · simp [check_compatibility, checkCompatibilityCore, checkCpuMbRule, checkRamRule, checkGpuRule,
        checkStorageRule, checkCoolingRule, checkCaseRule, checkPsuRule, hcat, hc, guardCompat,
        hsum, hw, pyGtFrac, liftRaw, pure, Except.pure, Bind.bind, Except.bind, ht]
      <;> omega
    · simp [check_compatibility, checkCompatibilityCore, checkCpuMbRule, checkRamRule, checkGpuRule,
        checkStorageRule, checkCoolingRule, checkCaseRule, checkPsuRule, hcat, hc, guardCompat,
        hsum, hw, pyGtFrac, liftRaw, pure, Except.pure, Bind.bind, Except.bind, ht]
      <;> omega
  | some cas =>
    obtain ⟨l, hl⟩ := hcaselist cas (by simp [hc])
    by_cases hin : newc.getSpecD "form_factor" (.jstr "") ∈ l
    · by_cases ht : 4 * w < 5 * totalTdpOf sel
      · simp [check_compatibility, checkCompatibilityCore, checkCpuMbRule, checkRamRule, checkGpuRule,
          checkStorageRule, checkCoolingRule, checkCaseRule, checkPsuRule, hcat, hc, guardCompat,
          hsum, hw, hl, hin, pyIn, pyGtFrac, liftRaw, pure, Except.pure, Bind.bind, Except.bind, ht]
        <;> omega
      · simp [check_compatibility, checkCompatibilityCore, checkCpuMbRule, checkRamRule, checkGpuRule,
          checkStorageRule, checkCoolingRule, checkCaseRule, checkPsuRule, hcat, hc, guardCompat,
          hsum, hw, hl, hin, pyIn, pyGtFrac, liftRaw, pure, Except.pure, Bind.bind, Except.bind, ht]
        <;> omega
    · simp [check_compatibility, checkCompatibilityCore, checkCpuMbRule, checkRamRule, checkGpuRule,
        checkStorageRule, checkCoolingRule, checkCaseRule, checkPsuRule, hcat, hc, guardCompat,
        hsum, hw, hl, hin, pyIn, pyGtFrac, liftRaw, pure, Except.pure, Bind.bind, Except.bind]

/-- Witness for C6 at a concrete input: the 850W ATX PSU against the selected
CPU (TDP 125), GPU (TDP 320) and case. -/
theorem psu_accepted_iff_form_factor_and_load_witness :
    check_compatibility [cpuC, gpu320, caseC] psuC = .ok true ↔
      ((∀ cas ∈ firstOfCategory [cpuC, gpu320, caseC] "Case", ∀ l,
          cas.getSpecD "psu_form_factors" (.jlist []) = .jlist l →
          psuC.getSpecD "form_factor" (.jstr "") ∈ l) ∧
       5 * totalTdpOf [cpuC, gpu320, caseC] ≤ 4 * 850) :=
  psu_accepted_iff_form_factor_and_load [cpuC, gpu320, caseC] psuC 850 rfl rfl
    (by
      intro c hc hcat
      fin_cases hc <;> simp_all <;> rfl)
    (by
      intro cas h
      rw [show firstOfCategory [cpuC, gpu320, caseC] "Case" = some caseC from rfl, Option.mem_def,
        Option.some_inj] at h
      subst h
      exact ⟨[.jstr "ATX", .jstr "SFX"], rfl⟩)

theorem resolveComponents_congr (catalog : Catalog) :
    ∀ (d1 d2 : List PartEntry), d1.map (·.component_id) = d2.map (·.component_id) →
      resolveComponents catalog d1 = resolveComponents catalog d2 := by
  intro d1
  induction d1 with
  | nil =>
    intro d2 h
    cases d2 with
    | nil => rfl
    | cons b bs => simp at h
  | cons a as ih =>
    intro d2 h
    cases d2 with
    | nil => simp at h
    | cons b bs =>
      simp at h
      obtain ⟨h1, h2⟩ := h
      simp only [resolveComponents, h1, ih bs h2]

/-- C10: the Ok/Error outcome of `validate_build` depends only on the sequence
of component ids in the parts list, never on any entry's quantity: parts lists
with the same ids in the same order validate identically (so slot and TDP
rules count list entries, not physical units). -/
theorem validate_build_ignores_quantity :
    ∀ (catalog : Catalog) (d1 d2 : List PartEntry),
      d1.map (·.component_id) = d2.map (·.component_id) →
      validate_build catalog d1 = validate_build catalog d2 := by
  intro catalog d1 d2 h
  have hre := resolveComponents_congr catalog d1 d2 h
  have hle : d1.isEmpty = d2.isEmpty := by
    cases d1 <;> cases d2 <;> simp_all
  simp only [validate_build, hre, hle]

/-- Witness for C10 at a concrete input: quantities all 1 versus all 8 (the
RAM line included) over the same ids validate identically. -/
theorem validate_build_ignores_quantity_witness :
    validate_build catalogC partsQ1 = validate_build catalogC partsQ8 :=
  validate_build_ignores_quantity catalogC partsQ1 partsQ8 rfl

/-- C7: a non-empty parts list that resolves to components whose categories
miss part of {CPU, Motherboard, RAM, PSU, Case} fails with the
Missing-Required-Components error carrying exactly the missing categories, and
the empty parts list is rejected outright. -/
theorem validate_build_missing_required :
    (∀ (catalog : Catalog) (data : List PartEntry) (comps : List Component),
      data ≠ [] →
      resolveComponents catalog data = .ok comps →
      missingRequiredOf comps ≠ [] →
      (validate_build catalog data = .error (.missingRequired (missingRequiredOf comps)) ∧
       ∀ r, r ∈ missingRequiredOf comps ↔
         (r ∈ REQUIRED_COMPONENTS ∧ r ∉ comps.map (·.category)))) ∧
    (∀ catalog : Catalog, validate_build catalog [] = .error .noComponents) := by
  constructor
  · intro catalog data comps hne hres hmiss
    constructor
    · have he : data.isEmpty = false := by
        cases data with
        | nil => simp at hne
        | cons a as => rfl
      simp only [validate_build, he, Bool.false_eq_true, if_false, hres, if_pos hmiss]
    · intro r
      unfold missingRequiredOf
      simp [List.mem_filter]
  · intro catalog
    rfl

/-- Witness for C7 at a concrete input: a CPU + Motherboard list misses RAM,
PSU and Case. -/
theorem validate_build_missing_required_witness :
    validate_build catalogC [⟨1, 1⟩, ⟨2, 1⟩] =
        .error (.missingRequired (missingRequiredOf [cpuC, mbC])) ∧
      ∀ r, r ∈ missingRequiredOf [cpuC, mbC] ↔
        (r ∈ REQUIRED_COMPONENTS ∧ r ∉ [cpuC, mbC].map (·.category)) :=
  validate_build_missing_required.1 catalogC [⟨1, 1⟩, ⟨2, 1⟩] [cpuC, mbC]
    (by decide) rfl (by decide)

theorem except_bind_ok {ε α β : Type} (x : Except ε α) (f : α → Except ε β) (b : β)
    (h : (x >>= f) = .ok b) : ∃ a, x = .ok a ∧ f a = .ok b := by
  cases x with
  | ok a => exact ⟨a, rfl, h⟩
  | error e => simp [Bind.bind, Except.bind] at h

theorem checkCompatibilityCore_ok (sel : List Component) (newc : Component) (b : Bool)
    (h : checkCompatibilityCore sel newc = .ok b) : b = true := by
  unfold checkCompatibilityCore at h
  obtain ⟨a1, h1, h⟩ := except_bind_ok _ _ _ h
  obtain ⟨a2, h2, h⟩ := except_bind_ok _ _ _ h
  obtain ⟨a3, h3, h⟩ := except_bind_ok _ _ _ h
  obtain ⟨a4, h4, h⟩ := except_bind_ok _ _ _ h
  obtain ⟨a5, h5, h⟩ := except_bind_ok _ _ _ h
  obtain ⟨a6, h6, h⟩ := except_bind_ok _ _ _ h
  obtain ⟨a7, h7, h⟩ := except_bind_ok _ _ _ h
  exact (Except.ok.inj h).symm

/-- C8: the compatibility check is total over its result type — every outcome
is either acceptance (`ok true`) or a raised `CompatibilityError` carrying a
reason string; a `CompatibilityError` raised by a rule surfaces verbatim, and
any raw internal fault of the rule body is wrapped into a `CompatibilityError`
prefixed "Error checking compatibility: " (never propagated raw). -/
theorem check_compatibility_total :
    ∀ (sel : List Component) (newc : Component),
      (check_compatibility sel newc = .ok true ∨
       ∃ m, check_compatibility sel newc = .error m) ∧
      (∀ m, checkCompatibilityCore sel newc = .error (.compat m) →
        check_compatibility sel newc = .error m) ∧
      (∀ m, checkCompatibilityCore sel newc = .error (.raw m) →
        check_compatibility sel newc = .error ("Error checking compatibility: " ++ m)) := by
  intro sel newc
  refine ⟨?_, ?_, ?_⟩
  · cases h : checkCompatibilityCore sel newc with
    | ok b =>
      left
      rw [check_compatibility, h, checkCompatibilityCore_ok sel newc b h]
    | error e =>
      right
      cases e with
      | compat m => exact ⟨m, by rw [check_compatibility, h]⟩
      | raw m => exact ⟨"Error checking compatibility: " ++ m, by rw [check_compatibility, h]⟩
  · intro m hm
    rw [check_compatibility, hm]
  · intro m hm
    rw [check_compatibility, hm]

/-- Witness for C8 at a concrete input: the RAM candidate whose `speed` is the
malformed string "fast" makes the rule body fault, and the engine returns the
wrapped `CompatibilityError`. -/
theorem check_compatibility_total_witness :
    check_compatibility [mbC] ramStrSpeed =
      .error ("Error checking compatibility: " ++ "TypeError") :=
  (check_compatibility_total [mbC] ramStrSpeed).2.2 "TypeError" rfl

/-- C9 (amended): a stock-level check while the stock is at or below a
threshold always appends a new unresolved alert of the corresponding status,
regardless of any alerts already present — the code never deduplicates. -/
theorem check_stock_level_always_appends :
    ∀ (c : Component) (alerts : List InventoryAlert),
      (c.stock ≤ 0 →
        (check_stock_level c alerts).2 =
          alerts ++ [⟨c.id, c.stock, "out_of_stock", false⟩]) ∧
      (0 < c.stock → c.stock ≤ c.reorder_point →
        (check_stock_level c alerts).2 =
          alerts ++ [⟨c.id, c.stock, "low_stock", false⟩]) := by
  intro c alerts
  constructor
  · intro h
    simp [check_stock_level, h, create_stock_alert]
  · intro h1 h2
    simp [check_stock_level, create_stock_alert, h2, show ¬ c.stock ≤ 0 by omega]

/-- Witness for C9 (amended) at a concrete input: component 22 with stock 0. -/
theorem check_stock_level_always_appends_witness :
    (check_stock_level outComp []).2 = [] ++ [⟨22, 0, "out_of_stock", false⟩] :=
  (check_stock_level_always_appends outComp []).1 (by decide)

/-- C9 counterexample: component 22 stays at stock 0; after a first check has
created an unresolved out-of-stock alert, a second check creates a second
alert of the same status for the same unresolved condition. -/
theorem check_stock_level_duplicates :
    (check_stock_level outComp ((check_stock_level outComp []).2)).2 =
      [⟨22, 0, "out_of_stock", false⟩, ⟨22, 0, "out_of_stock", false⟩] := rfl

/-- C2: the association row model (`BuildComponent`) stores no price, and
`PCBuild.save` recomputes `total_price` from the component's **current**
catalog price — after the catalog price of component 21 changes from 10 to 20,
saving the same build changes its stored total from 10 to 20. -/
theorem build_total_follows_catalog_price :
    (buildB.save [compP10]).total_price = 10 ∧
    (buildB.save [compP20]).total_price = 20 ∧
    (10 : Rat) ≠ 20 := by
  refine ⟨?_, ?_, by norm_num⟩
  · show (((get_component [compP10] 21).map (·.price)).getD 0) * ((1 : Nat) : Rat) + 0 = 10
    norm_num [get_component, compP10]
  · show (((get_component [compP20] 21).map (·.price)).getD 0) * ((1 : Nat) : Rat) + 0 = 20
    norm_num [get_component, compP20]

/-- C1 counterexample: over `partsQ2` (RAM quantity 2) the assembler computes
and stores total 97000 — the sum of each line's price counted once — while the
spec's formula Σ(price × quantity) over the same stored lines gives 109000. -/
theorem create_build_total_ignores_quantity :
    (create_build catalogC 7 "t" "d" partsQ2 true).map (fun b => b.total_price) =
        .ok 97000 ∧
    (create_build catalogC 7 "t" "d" partsQ2 true).map (fun b => specTotalPrice b.lines) =
        .ok 109000 ∧
    (97000 : Rat) ≠ 109000 := by
  refine ⟨?_, ?_, by norm_num⟩
  · show Except.ok (calculate_total_price [cpuC, mbC, ramC, psuC, caseC]) =
      Except.ok (97000 : Rat)
    have h : calculate_total_price [cpuC, mbC, ramC, psuC, caseC] = 97000 := by
      norm_num [calculate_total_price, cpuC, mbC, ramC, psuC, caseC]
    rw [h]
  · show Except.ok (specTotalPrice
        [⟨1, 1, 35000⟩, ⟨2, 1, 25000⟩, ⟨3, 2, 12000⟩, ⟨4, 1, 15000⟩, ⟨5, 1, 10000⟩]) =
      Except.ok (109000 : Rat)
    have h : specTotalPrice
        [⟨1, 1, 35000⟩, ⟨2, 1, 25000⟩, ⟨3, 2, 12000⟩, ⟨4, 1, 15000⟩, ⟨5, 1, 10000⟩] =
        109000 := by
      norm_num [specTotalPrice]
    rw [h]

theorem get_component_id (catalog : Catalog) (cid : Nat) (c : Component)
    (h : get_component catalog cid = some c) : c.id = cid := by
  have h2 := List.find?_some h
  simpa using h2

theorem resolve_mem (catalog : Catalog) :
    ∀ (data : List PartEntry) (comps : List Component),
      resolveComponents catalog data = .ok comps →
      ∀ c ∈ comps, get_component catalog c.id = some c := by
  intro data
  induction data with
  | nil =>
    intro comps h c hc
    simp only [resolveComponents] at h
    cases h
    simp at hc
  | cons e rest ih =>
    intro comps h c hc
    simp only [resolveComponents] at h
    cases hg : get_component catalog e.component_id with
    | none => rw [hg] at h; cases h
    | some c0 =>
      rw [hg] at h
      cases hr : resolveComponents catalog rest with
      | error er => rw [hr] at h; cases h
      | ok cs =>
        rw [hr] at h
        cases h
        rcases List.mem_cons.mp hc with hc1 | hc2
        · subst hc1
          rw [get_component_id catalog e.component_id c hg]
          exact hg
        · exact ih cs hr c hc2

theorem resolve_entry (catalog : Catalog) :
    ∀ (data : List PartEntry) (comps : List Component),
      resolveComponents catalog data = .ok comps →
      ∀ e ∈ data, ∃ c ∈ comps, c.id = e.component_id := by
  intro data
  induction data with
  | nil =>
    intro comps h e he
    simp at he
  | cons e0 rest ih =>
    intro comps h e he
    simp only [resolveComponents] at h
    cases hg : get_component catalog e0.component_id with
    | none => rw [hg] at h; cases h
    | some c0 =>
      rw [hg] at h
      cases hr : resolveComponents catalog rest with
      | error er => rw [hr] at h; cases h
      | ok cs =>
        rw [hr] at h
        cases h
        rcases List.mem_cons.mp he with he1 | he2
        · subst he1
          exact ⟨c0, List.mem_cons_self c0 cs, get_component_id catalog e.component_id c0 hg⟩
        · obtain ⟨c, hcm, hcid⟩ := ih cs hr e he2
          exact ⟨c, List.mem_cons_of_mem c0 hcm, hcid⟩

theorem price_lines_sum (catalog : Catalog) (all : List Component)
    (hall : ∀ c ∈ all, get_component catalog c.id = some c) :
    ∀ (data : List PartEntry) (comps : List Component),
      resolveComponents catalog data = .ok comps →
      (∀ e ∈ data, ∃ c ∈ all, c.id = e.component_id) →
      (data.map (fun e =>
        (((all.find? (fun c => decide (c.id = e.component_id))).map (·.price)).getD 0))).sum =
        (comps.map (·.price)).sum := by
  intro data
  induction data with
  | nil =>
    intro comps h _
    simp only [resolveComponents] at h
    cases h
    simp
  | cons e rest ih =>
    intro comps h hex
    simp only [resolveComponents] at h
    cases hg : get_component catalog e.component_id with
    | none => rw [hg] at h; cases h
    | some c0 =>
      rw [hg] at h
      cases hr : resolveComponents catalog rest with
      | error er => rw [hr] at h; cases h
      | ok cs =>
        rw [hr] at h
        cases h
        obtain ⟨cw, hcwmem, hcwid⟩ := hex e (List.mem_cons_self e rest)
        have hfind : (all.find? (fun c => decide (c.id = e.component_id))).isSome := by
          rw [List.find?_isSome]
          exact ⟨cw, hcwmem, by simpa using hcwid⟩
        obtain ⟨x, hx⟩ := Option.isSome_iff_exists.mp hfind
        have hxid : x.id = e.component_id := by simpa using List.find?_some hx
        have hxmem := List.mem_of_find?_eq_some hx
        have hgx : get_component catalog e.component_id = some x := by
          rw [← hxid]
          exact hall x hxmem
        have hxc0 : x = c0 := by
          rw [hgx] at hg
          exact Option.some_inj.mp hg
        simp [hx, hxc0, ih cs hr (fun e2 he2 => hex e2 (List.mem_cons_of_mem e he2))]

theorem validate_build_ok_resolve (catalog : Catalog) (data : List PartEntry)
    (comps : List Component) (h : validate_build catalog data = .ok comps) :
    resolveComponents catalog data = .ok comps := by
  unfold validate_build at h
  by_cases he : data.isEmpty
  · simp [he] at h
  · rw [if_neg he] at h
    cases hr : resolveComponents catalog data with
    | error er => rw [hr] at h; cases h
    | ok cs =>
      rw [hr] at h
      by_cases hm : missingRequiredOf cs = []
      · cases hp : pairwiseCheckAux [] cs with
        | error m => simp [hm, hp] at h
        | ok u =>
          simp [hm, hp] at h
          rw [h]
      · simp [hm] at h

/-- C1 (amended): the assembler's total (`calculate_total_price`, stored by
`create_build`) sums each line's component price **once**, ignoring quantity;
it therefore equals the spec formula Σ(price × quantity), in exact decimal
arithmetic, exactly when every line's quantity is 1. -/
theorem create_build_total_when_quantities_one :
    ∀ (catalog : Catalog) (uid : Nat) (t d : String) (data : List PartEntry) (pub : Bool)
      (b : BuildRecord),
      (∀ e ∈ data, e.quantity = 1) →
      create_build catalog uid t d data pub = .ok b →
      b.total_price = specTotalPrice b.lines := by
  intro catalog uid t d data pub b hq hok
  unfold create_build at hok
  cases hv : validate_build catalog data with
  | error er => rw [hv] at hok; cases hok
  | ok comps =>
    rw [hv] at hok
    have hres := validate_build_ok_resolve catalog data comps hv
    have hall := resolve_mem catalog data comps hres
    have hex : ∀ e ∈ data, ∃ c ∈ comps, c.id = e.component_id :=
      resolve_entry catalog data comps hres
    injection hok with hb
    subst hb
    show calculate_total_price comps =
      specTotalPrice (data.map (fun item =>
        { component_id := item.component_id
          quantity := item.quantity
          price_at_time :=
            (((comps.find? (fun c => decide (c.id = item.component_id))).map
              (·.price)).getD 0) }))
    unfold specTotalPrice calculate_total_price
    rw [List.map_map]
    have hcong : data.map ((fun l : BuildLine => l.price_at_time * (l.quantity : Rat)) ∘
        (fun item : PartEntry =>
          ({ component_id := item.component_id
             quantity := item.quantity
             price_at_time :=
               (((comps.find? (fun c => decide (c.id = item.component_id))).map
                 (·.price)).getD 0) } : BuildLine))) =
        data.map (fun e =>
          (((comps.find? (fun c => decide (c.id = e.component_id))).map (·.price)).getD 0)) := by
      apply List.map_congr_left
      intro e he
      simp [hq e he]
    rw [hcong]
    exact (price_lines_sum catalog comps hall data comps hres hex).symm

/-- Witness for C1 (amended) at a concrete input: `partsQ1`, all quantities
1. -/
theorem create_build_total_when_quantities_one_witness :
    buildQ1.total_price = specTotalPrice buildQ1.lines :=
  create_build_total_when_quantities_one catalogC 7 "t" "d" partsQ1 true buildQ1
    (by decide) rfl
